import Mathlib

/-!
# Verification of the vprompt multi-line prompt component

A shallow embedding of `vibe-prompt.go` (package `vprompt`): a multi-line
text-input engine with history and autocompletion for terminal applications.

Modelling conventions:
* A Go `string` is a `List Nat` of bytes (each < 256 for well-formed data);
  Go `len`, slicing `s[:i]`, `s[i:]` and concatenation are `List.length`,
  `List.take`, `List.drop` and `++` on the byte list.
* A Go `rune` is a `Nat` codepoint; `[]rune(s)` is `utf8Decode`,
  `string(runes)` is `utf8Encode`, both mirroring Go's `unicode/utf8`
  semantics (invalid bytes decode to U+FFFD and consume one byte;
  out-of-range/surrogate runes encode as U+FFFD).
* Go `int` fields that can hold negative values (`historyIndex`,
  `selectedSuggestionIndex`, `popupScrollOffset`) are `Int`; `cursorRow`
  and `cursorCol` stay `Nat` (every mutation in the source is guarded so
  they never go below zero).
* Host callbacks are fields of `PromptConfig`; the nilable Go function
  fields `AutoCompleteFn` and `ExecuteFn` are `Option`s.
* Bounded `for` loops are translated to structural or fuel recursion with
  fuel large enough to be exact (each iteration consumes at least one
  element).
* `m.execLog` and `m.acLog` are ghost instrumentation only: the step
  function appends to them exactly where the Go code invokes the
  `ExecuteFn` / `AutoCompleteFn` callback, so that "the callback is
  invoked (exactly once, with these arguments)" is expressible. No other
  definition reads them.
* Go indexing `xs[i]` panics when out of range; the model uses the total
  `List.getD`. All theorems below use it only under hypotheses (or in
  reachable states) where the index is in range, so model and source agree.
-/

/-! ## Go strings: UTF-8 bytes and runes -/

/-- One byte of a UTF-8 continuation: `0x80 ≤ b ≤ 0xBF`. -/
def contByte (b : Nat) : Bool := decide (0x80 ≤ b ∧ b ≤ 0xBF)

/-- Accepted second-byte ranges for a three-byte sequence, per Go
`utf8.acceptRanges`: `E0` needs `A0..BF`, `ED` needs `80..9F` (no
surrogates), others `80..BF`. -/
def accept3 (b0 b1 : Nat) : Bool :=
  if b0 = 0xE0 then decide (0xA0 ≤ b1 ∧ b1 ≤ 0xBF)
  else if b0 = 0xED then decide (0x80 ≤ b1 ∧ b1 ≤ 0x9F)
  else contByte b1

/-- Accepted second-byte ranges for a four-byte sequence, per Go
`utf8.acceptRanges`: `F0` needs `90..BF`, `F4` needs `80..8F`, others
`80..BF`. -/
def accept4 (b0 b1 : Nat) : Bool :=
  if b0 = 0xF0 then decide (0x90 ≤ b1 ∧ b1 ≤ 0xBF)
  else if b0 = 0xF4 then decide (0x80 ≤ b1 ∧ b1 ≤ 0x8F)
  else contByte b1

/-- Go `utf8.DecodeRuneInString`: first rune of the byte list and the byte
count it consumed. Invalid input yields `(0xFFFD, 1)` (or `(0xFFFD, 0)` on
empty input), exactly as in Go. -/
def utf8DecodeFirst : List Nat → Nat × Nat
  | [] => (0xFFFD, 0)
  | b0 :: rest =>
    if b0 < 0x80 then (b0, 1)
    else if b0 < 0xC2 then (0xFFFD, 1)
    else if b0 < 0xE0 then
      match rest with
      | b1 :: _ =>
        if contByte b1 then ((b0 - 0xC0) * 64 + (b1 - 0x80), 2) else (0xFFFD, 1)
      | [] => (0xFFFD, 1)
    else if b0 < 0xF0 then
      match rest with
      | b1 :: b2 :: _ =>
        if accept3 b0 b1 && contByte b2 then
          ((b0 - 0xE0) * 4096 + (b1 - 0x80) * 64 + (b2 - 0x80), 3)
        else (0xFFFD, 1)
      | _ => (0xFFFD, 1)
    else if b0 < 0xF5 then
      match rest with
      | b1 :: b2 :: b3 :: _ =>
        if accept4 b0 b1 && contByte b2 && contByte b3 then
          ((b0 - 0xF0) * 262144 + (b1 - 0x80) * 4096 + (b2 - 0x80) * 64 + (b3 - 0x80), 4)
        else (0xFFFD, 1)
      | _ => (0xFFFD, 1)
    else (0xFFFD, 1)

/-- Decode a whole byte list to its rune (codepoint) list, Go `[]rune(s)`.
Fuel recursion; each step consumes at least one byte, so fuel `l.length`
is exact. -/
def utf8DecodeAux : Nat → List Nat → List Nat
  | 0, _ => []
  | _, [] => []
  | fuel + 1, l =>
    let rn := utf8DecodeFirst l
    rn.1 :: utf8DecodeAux fuel (l.drop (max rn.2 1))

/-- Go `[]rune(s)` on a byte list. -/
def utf8Decode (l : List Nat) : List Nat := utf8DecodeAux l.length l

/-- Codepoint length of a Go string (byte list): `len([]rune(s))`. -/
def runeLength (l : List Nat) : Nat := (utf8Decode l).length

/-- Go encoding of one rune to UTF-8 bytes (`utf8.EncodeRune`): surrogates
and out-of-range values encode as U+FFFD (`EF BF BD`), as in Go's
`string([]rune)` conversion. -/
def goEncodeRune (r : Nat) : List Nat :=
  if r < 0x80 then [r]
  else if r < 0x800 then [0xC0 + r / 64, 0x80 + r % 64]
  else if 0xD800 ≤ r ∧ r < 0xE000 then [0xEF, 0xBF, 0xBD]
  else if r < 0x10000 then [0xE0 + r / 4096, 0x80 + (r / 64) % 64, 0x80 + r % 64]
  else if r ≤ 0x10FFFF then
    [0xF0 + r / 262144, 0x80 + (r / 4096) % 64, 0x80 + (r / 64) % 64, 0x80 + r % 64]
  else [0xEF, 0xBF, 0xBD]

/-- Go `string(runes)`: concatenated UTF-8 encodings. -/
def utf8Encode (rs : List Nat) : List Nat :=
  rs.foldr (fun r acc => goEncodeRune r ++ acc) []

/-! ## Go `strings` and `unicode` helpers used by the source -/

/-- `unicode.IsSpace`: Unicode White_Space codepoints. -/
def isGoSpace (r : Nat) : Bool :=
  decide (r = 9 ∨ r = 10 ∨ r = 11 ∨ r = 12 ∨ r = 13 ∨ r = 32 ∨ r = 0x85 ∨ r = 0xA0 ∨
    r = 0x1680 ∨ (0x2000 ≤ r ∧ r ≤ 0x200A) ∨ r = 0x2028 ∨ r = 0x2029 ∨
    r = 0x202F ∨ r = 0x205F ∨ r = 0x3000)

/-- Is byte `b` a UTF-8 sequence START byte (not a continuation byte)?
Go `utf8.RuneStart`. -/
def runeStart (b : Nat) : Bool := !contByte b

/-- The backwards scan of Go `utf8.DecodeLastRuneInString`: walk `s`
downwards from `len-2` while `s ≥ lim`, stopping at the first start byte;
falling through yields `lim - 1` clamped at 0 (Go clamps a negative
result to 0 before slicing). -/
def lastRuneScan (l : List Nat) (lim : Nat) : Nat → Nat
  | 0 => if 0 < lim then lim - 1 else if runeStart (l.getD 0 0) then 0 else 0
  | s + 1 =>
    if s + 1 < lim then lim - 1
    else if runeStart (l.getD (s + 1) 0) then s + 1
    else lastRuneScan l lim s

/-- Go `utf8.DecodeLastRuneInString`: last rune of the byte list and its
byte count; `(0xFFFD, 0)` on empty input, `(0xFFFD, 1)` on invalid input. -/
def utf8DecodeLast (l : List Nat) : Nat × Nat :=
  if l.length = 0 then (0xFFFD, 0)
  else
    let last := l.getD (l.length - 1) 0
    if last < 0x80 then (last, 1)
    else
      let lim := l.length - 4
      let start := lastRuneScan l lim (l.length - 2)
      let rn := utf8DecodeFirst (l.drop start)
      if start + rn.2 = l.length then rn else (0xFFFD, 1)

/-- Leading half of Go `strings.TrimSpace`: repeatedly drop a leading
space rune. Fuel recursion (each step drops at least one byte). -/
def trimLeftAux : Nat → List Nat → List Nat
  | 0, l => l
  | fuel + 1, l =>
    match l with
    | [] => []
    | _ =>
      let rn := utf8DecodeFirst l
      if isGoSpace rn.1 then trimLeftAux fuel (l.drop (max rn.2 1)) else l

/-- Trailing half of Go `strings.TrimSpace`: repeatedly drop a trailing
space rune (decoded with `DecodeLastRune`). -/
def trimRightAux : Nat → List Nat → List Nat
  | 0, l => l
  | fuel + 1, l =>
    let rn := utf8DecodeLast l
    if rn.2 = 0 then l
    else if isGoSpace rn.1 then trimRightAux fuel (l.take (l.length - rn.2)) else l

/-- Go `strings.TrimSpace` on a byte list. -/
def goTrimSpace (l : List Nat) : List Nat :=
  trimRightAux l.length (trimLeftAux l.length l)

/-- Go `strings.HasSuffix` on byte lists. -/
def goHasSuffix (l s : List Nat) : Bool :=
  decide (s.length ≤ l.length) && (l.drop (l.length - s.length) == s)

/-- Worker for Go `strings.Split(s, "\n")`; `cur` is the reversed chunk
being accumulated. -/
def splitNewlineAux (cur : List Nat) : List Nat → List (List Nat)
  | [] => [cur.reverse]
  | b :: rest =>
    if b = 10 then cur.reverse :: splitNewlineAux [] rest
    else splitNewlineAux (b :: cur) rest

/-- Go `strings.Split(s, "\n")` — always returns at least one element. -/
def goSplitNewline (l : List Nat) : List (List Nat) := splitNewlineAux [] l

/-! ## Data model (`Suggestion`, `PromptConfig`, `PromptModel`) -/

/-- `Suggestion`: one autocomplete suggestion (text plus description). -/
structure Suggestion where
  text : List Nat
  description : List Nat
deriving DecidableEq

/-- `PromptConfig`: the host-supplied callbacks and settings the core
reads. Styling and the prompt strings are presentation-only and are not
part of the core model. `AutoCompleteFn` and `ExecuteFn` may be nil in Go,
hence `Option`. -/
structure PromptConfig where
  autoCompleteFn : Option (List Nat → List Nat → List Suggestion)
  executeFn : Option (List Nat → List Nat)
  isCompleteFn : List Nat → Bool
  isWordCharFn : Nat → Bool
  popupMaxHeight : Int

/-- `PromptModel`: the component state. `execLog` / `acLog` are ghost
observation logs of callback invocations (see the module header). -/
structure PromptModel where
  config : PromptConfig
  lines : List (List Nat)
  cursorRow : Nat
  cursorCol : Nat
  history : List (List Nat)
  historyIndex : Int
  suggestions : List Suggestion
  showPopup : Bool
  selectedSuggestionIndex : Int
  lastSuggestedWord : List Nat
  popupScrollOffset : Int
  lastOutput : List Nat
  execLog : List (List Nat)
  acLog : List (List Nat × List Nat)

/-- The key events the `Update`/`handleKeyPress` dispatcher distinguishes
(`tea.KeyMsg` types). `other` stands for any unhandled key type. -/
inductive KeyEvent where
  | ctrlC | esc | enter | backspace | tab | up | down | left | right | space
  | runes (rs : List Nat)
  | other
deriving DecidableEq

/-- `NewPromptModel`: initial state — one empty line, cursor at origin,
empty history, `historyIndex = -1`; a non-positive `PopupMaxHeight` is
replaced by the default 6. (The Go nil-checks for `IsCompleteFn` /
`IsWordCharFn` are vacuous here because those fields are total functions
in the model.) -/
def NewPromptModel (config : PromptConfig) : PromptModel :=
  let config :=
    if config.popupMaxHeight ≤ 0 then { config with popupMaxHeight := 6 } else config
  { config := config
    lines := [[]]
    cursorRow := 0
    cursorCol := 0
    history := []
    historyIndex := -1
    suggestions := []
    showPopup := false
    selectedSuggestionIndex := 0
    lastSuggestedWord := []
    popupScrollOffset := 0
    lastOutput := []
    execLog := []
    acLog := [] }

/-- `DefaultIsComplete`: input is complete when it ends with a semicolon
after trimming whitespace. -/
def DefaultIsComplete (input : List Nat) : Bool :=
  goHasSuffix (goTrimSpace input) [59]

/-! ## Line buffer operations -/

/-- `clearLastOutputOnEdit`: reset `lastOutput` for editing/navigation key
types (Backspace, Runes, Space, Up, Down, Left, Right); other key types
leave it alone. -/
def clearLastOutputOnEdit (m : PromptModel) (keyType : KeyEvent) : PromptModel :=
  match keyType with
  | .backspace => { m with lastOutput := [] }
  | .runes _ => { m with lastOutput := [] }
  | .space => { m with lastOutput := [] }
  | .up => { m with lastOutput := [] }
  | .down => { m with lastOutput := [] }
  | .left => { m with lastOutput := [] }
  | .right => { m with lastOutput := [] }
  | _ => m

/-- `insertRunes`: filter out runes below `' '` (U+0020), splice the
UTF-8 encoding of the remainder into the current line at byte position
`cursorCol` (the Go code slices the line by bytes), advance `cursorCol`
by the RUNE count, and cancel history browsing. Empty filtered input is
an early return that changes nothing. -/
def insertRunes (m : PromptModel) (runes : List Nat) : PromptModel :=
  if runes.filter (fun r => 32 ≤ r) = [] then m
  else
    { m with
      lines := m.lines.set m.cursorRow
        ((m.lines.getD m.cursorRow []).take m.cursorCol ++
          utf8Encode (runes.filter (fun r => 32 ≤ r)) ++
          (m.lines.getD m.cursorRow []).drop m.cursorCol)
      cursorCol := m.cursorCol + (runes.filter (fun r => 32 ≤ r)).length
      historyIndex := -1 }

/-- `insertCharacter`: insert a single rune. -/
def insertCharacter (m : PromptModel) (r : Nat) : PromptModel :=
  insertRunes m [r]

/-- `deleteBeforeCursor`: with `cursorCol > 0` delete the BYTE at
`cursorCol - 1` of the current line (Go slices the string by bytes) and
step the column back; at column 0 on a later row, merge the current line
onto the previous one; at row 0 / column 0, do nothing. -/
def deleteBeforeCursor (m : PromptModel) : PromptModel :=
  if 0 < m.cursorCol then
    { m with
      lines := m.lines.set m.cursorRow
        ((m.lines.getD m.cursorRow []).take (m.cursorCol - 1) ++
          (m.lines.getD m.cursorRow []).drop m.cursorCol)
      cursorCol := m.cursorCol - 1 }
  else if 0 < m.cursorRow then
    { m with
      lines :=
        (m.lines.set (m.cursorRow - 1)
            (m.lines.getD (m.cursorRow - 1) [] ++ m.lines.getD m.cursorRow [])).take m.cursorRow ++
        (m.lines.set (m.cursorRow - 1)
            (m.lines.getD (m.cursorRow - 1) [] ++ m.lines.getD m.cursorRow [])).drop (m.cursorRow + 1)
      cursorRow := m.cursorRow - 1
      cursorCol := (m.lines.getD (m.cursorRow - 1) []).length }
  else m

/-- `cleanupExtraBlankLines`: while at least two lines remain and the last
two are whitespace-only, drop the last line. Fuel recursion (each
iteration removes one line). -/
def cleanupExtraBlankLinesAux : Nat → List (List Nat) → List (List Nat)
  | 0, ls => ls
  | fuel + 1, ls =>
    if 1 < ls.length ∧ (goTrimSpace (ls.getD (ls.length - 1) [])).isEmpty = true ∧
        (goTrimSpace (ls.getD (ls.length - 2) [])).isEmpty = true then
      cleanupExtraBlankLinesAux fuel (ls.take (ls.length - 1))
    else ls

/-- `cleanupExtraBlankLines` on a line list. -/
def cleanupExtraBlankLines (ls : List (List Nat)) : List (List Nat) :=
  cleanupExtraBlankLinesAux ls.length ls

/-- `insertNewline`: split the current line at the (byte) cursor column
into `left`/`right`, rebuild the line list with both parts, move the
cursor to the start of the new line, run blank-line cleanup, and re-clamp
the cursor row (with a safety reset to `[""]` if the buffer somehow became
empty). -/
def insertNewline (m : PromptModel) : PromptModel :=
  let currentLine := m.lines.getD m.cursorRow []
  let left := currentLine.take m.cursorCol
  let right := currentLine.drop m.cursorCol
  let newLines := m.lines.take m.cursorRow ++ [left, right] ++
    (if m.cursorRow + 1 < m.lines.length then m.lines.drop (m.cursorRow + 1) else [])
  let m1 := { m with
    lines := cleanupExtraBlankLines newLines
    cursorRow := m.cursorRow + 1
    cursorCol := 0 }
  if m1.lines.length ≤ m1.cursorRow ∧ 0 < m1.lines.length then
    { m1 with cursorRow := m1.lines.length - 1 }
  else if m1.lines.length = 0 then
    { m1 with lines := [[]], cursorRow := 0 }
  else m1

/-- `moveCursorUp`: move up one row if possible, snapping the column to
the target line's BYTE length when it is shorter. -/
def moveCursorUp (m : PromptModel) : PromptModel :=
  if 0 < m.cursorRow then
    { m with
      cursorRow := m.cursorRow - 1
      cursorCol :=
        if (m.lines.getD (m.cursorRow - 1) []).length < m.cursorCol then
          (m.lines.getD (m.cursorRow - 1) []).length
        else m.cursorCol }
  else m

/-- `moveCursorDown`: move down one row if possible, snapping the column
to the target line's BYTE length when it is shorter. -/
def moveCursorDown (m : PromptModel) : PromptModel :=
  if m.cursorRow < m.lines.length - 1 then
    { m with
      cursorRow := m.cursorRow + 1
      cursorCol :=
        if (m.lines.getD (m.cursorRow + 1) []).length < m.cursorCol then
          (m.lines.getD (m.cursorRow + 1) []).length
        else m.cursorCol }
  else m

/-- `moveCursorLeft`: step the column back, or wrap to the end (BYTE
length) of the previous line. -/
def moveCursorLeft (m : PromptModel) : PromptModel :=
  if 0 < m.cursorCol then { m with cursorCol := m.cursorCol - 1 }
  else if 0 < m.cursorRow then
    { m with
      cursorRow := m.cursorRow - 1
      cursorCol := (m.lines.getD (m.cursorRow - 1) []).length }
  else m

/-- `moveCursorRight`: step the column forward while below the line's
BYTE length, or wrap to the start of the next line. -/
def moveCursorRight (m : PromptModel) : PromptModel :=
  if m.cursorCol < (m.lines.getD m.cursorRow []).length then
    { m with cursorCol := m.cursorCol + 1 }
  else if m.cursorRow < m.lines.length - 1 then
    { m with cursorRow := m.cursorRow + 1, cursorCol := 0 }
  else m

/-- `getTextBeforeCursor`: all lines above the cursor row (each followed
by `'\n'`) plus the re-encoded rune slice of the current line up to
`min cursorCol (rune count)`. -/
def getTextBeforeCursor (m : PromptModel) : List Nat :=
  if m.lines.length ≤ m.cursorRow then []
  else
    let before := (m.lines.take m.cursorRow).foldl (fun acc l => acc ++ l ++ [10]) []
    if 0 < m.cursorCol then
      let runes := utf8Decode (m.lines.getD m.cursorRow [])
      before ++ utf8Encode (runes.take (min m.cursorCol runes.length))
    else before

/-! ## Word fragment and autocomplete -/

/-- The backwards scan shared by `currentWordFragment` and
`applyAutocomplete`: from column `c`, step left while the rune to the
left satisfies the classifier (`for start > 0 { if isWordCharFn(...) }`). -/
def wordScanStart (p : Nat → Bool) (runes : List Nat) : Nat → Nat
  | 0 => 0
  | s + 1 => if p (runes.getD s 0) then wordScanStart p runes s else s + 1

/-- `currentWordFragment`: the run of classifier-accepted runes
immediately left of the cursor, or `""` when the cursor row is out of
range, the column is 0 or exceeds the rune count, or the rune directly
left of the cursor fails the classifier. -/
def currentWordFragment (m : PromptModel) (isWordCharFn : Nat → Bool) : List Nat :=
  if m.lines.length ≤ m.cursorRow then []
  else if m.cursorCol = 0 then []
  else if (utf8Decode (m.lines.getD m.cursorRow [])).length < m.cursorCol then []
  else if wordScanStart isWordCharFn (utf8Decode (m.lines.getD m.cursorRow [])) m.cursorCol <
        m.cursorCol ∧ 0 < m.cursorCol ∧
      isWordCharFn ((utf8Decode (m.lines.getD m.cursorRow [])).getD (m.cursorCol - 1) 0) = true then
    utf8Encode (((utf8Decode (m.lines.getD m.cursorRow [])).take m.cursorCol).drop
      (wordScanStart isWordCharFn (utf8Decode (m.lines.getD m.cursorRow [])) m.cursorCol))
  else []

/-- `clearAutocomplete`: hide the popup and reset all suggestion state. -/
def clearAutocomplete (m : PromptModel) : PromptModel :=
  { m with
    suggestions := []
    showPopup := false
    selectedSuggestionIndex := 0
    lastSuggestedWord := []
    popupScrollOffset := 0 }

/-- The `clear` flag computed at the top of `updateAutocomplete`: true
when there is no word fragment, or the rune left of the cursor fails the
classifier, or the cursor column is out of the line's rune range or at 0. -/
def autocompleteClearCond (m : PromptModel) : Bool :=
  if currentWordFragment m m.config.isWordCharFn = [] then true
  else if 0 < m.cursorCol ∧ m.cursorRow < m.lines.length then
    if m.cursorCol ≤ (utf8Decode (m.lines.getD m.cursorRow [])).length ∧
        ¬ m.config.isWordCharFn
            ((utf8Decode (m.lines.getD m.cursorRow [])).getD (m.cursorCol - 1) 0) = true then
      true
    else if (utf8Decode (m.lines.getD m.cursorRow [])).length < m.cursorCol then true
    else false
  else if m.cursorCol = 0 then true
  else false

/-- `updateAutocomplete`: recompute the word fragment; clear the
suggestion state when there is no usable fragment; regenerate suggestions
through the configured callback when the fragment changed; otherwise only
hide an empty popup. The `acLog` append marks the callback invocation. -/
def updateAutocomplete (m : PromptModel) : PromptModel :=
  if autocompleteClearCond m = true then clearAutocomplete m
  else if currentWordFragment m m.config.isWordCharFn ≠ m.lastSuggestedWord then
    match m.config.autoCompleteFn with
    | some f =>
      { m with
        selectedSuggestionIndex := 0
        popupScrollOffset := 0
        suggestions :=
          f (getTextBeforeCursor m) (currentWordFragment m m.config.isWordCharFn)
        showPopup := decide (0 <
          (f (getTextBeforeCursor m) (currentWordFragment m m.config.isWordCharFn)).length)
        lastSuggestedWord := currentWordFragment m m.config.isWordCharFn
        acLog := m.acLog ++
          [(getTextBeforeCursor m, currentWordFragment m m.config.isWordCharFn)] }
    | none =>
      { m with
        selectedSuggestionIndex := 0
        popupScrollOffset := 0
        suggestions := []
        showPopup := false
        lastSuggestedWord := currentWordFragment m m.config.isWordCharFn }
  else if m.suggestions.length = 0 then { m with showPopup := false }
  else m

/-- `navigateAutocompleteUp`: move the selection up with wrap-around,
scrolling so the selection stays visible. -/
def navigateAutocompleteUp (m : PromptModel) : PromptModel :=
  if m.showPopup = true ∧ 0 < m.suggestions.length then
    if m.selectedSuggestionIndex - 1 < 0 then
      { m with
        selectedSuggestionIndex := (m.suggestions.length : Int) - 1
        popupScrollOffset := max 0 ((m.suggestions.length : Int) - m.config.popupMaxHeight) }
    else if m.selectedSuggestionIndex - 1 < m.popupScrollOffset then
      { m with
        selectedSuggestionIndex := m.selectedSuggestionIndex - 1
        popupScrollOffset := m.selectedSuggestionIndex - 1 }
    else { m with selectedSuggestionIndex := m.selectedSuggestionIndex - 1 }
  else m

/-- `navigateAutocompleteDown`: move the selection down with wrap-around,
scrolling so the selection stays visible. -/
def navigateAutocompleteDown (m : PromptModel) : PromptModel :=
  if m.showPopup = true ∧ 0 < m.suggestions.length then
    if (m.suggestions.length : Int) ≤ m.selectedSuggestionIndex + 1 then
      { m with selectedSuggestionIndex := 0, popupScrollOffset := 0 }
    else if m.popupScrollOffset + m.config.popupMaxHeight ≤ m.selectedSuggestionIndex + 1 then
      { m with
        selectedSuggestionIndex := m.selectedSuggestionIndex + 1
        popupScrollOffset := m.selectedSuggestionIndex + 1 - m.config.popupMaxHeight + 1 }
    else { m with selectedSuggestionIndex := m.selectedSuggestionIndex + 1 }
  else m

/-- `applyAutocomplete`: when the popup is visible and non-empty, re-scan
left from the cursor with the classifier to find the fragment start (a
RUNE index), rebuild the line as re-encoded head runes + suggestion text
(raw bytes) + re-encoded tail runes, set `cursorCol` to `start` plus the
BYTE length of the suggestion text, and clear the suggestion state. -/
def applyAutocomplete (m : PromptModel) : PromptModel :=
  if m.showPopup = true ∧ 0 < m.suggestions.length then
    clearAutocomplete { m with
      lines := m.lines.set m.cursorRow
        (utf8Encode ((utf8Decode (m.lines.getD m.cursorRow [])).take
            (wordScanStart m.config.isWordCharFn
              (utf8Decode (m.lines.getD m.cursorRow [])) m.cursorCol)) ++
          (m.suggestions.getD m.selectedSuggestionIndex.toNat ⟨[], []⟩).text ++
          utf8Encode ((utf8Decode (m.lines.getD m.cursorRow [])).drop m.cursorCol))
      cursorCol :=
        wordScanStart m.config.isWordCharFn
            (utf8Decode (m.lines.getD m.cursorRow [])) m.cursorCol +
          (m.suggestions.getD m.selectedSuggestionIndex.toNat ⟨[], []⟩).text.length }
  else m

/-! ## History -/

/-- `loadHistoryEntry`: replace the line buffer with the entry at
`historyIndex` split on newlines, cursor at the end of the last line, and
clear autocomplete; out-of-range index does nothing. (The Go fallbacks
for an empty split result are kept although `Split` never returns an
empty slice.) -/
def loadHistoryEntry (m : PromptModel) : PromptModel :=
  if 0 ≤ m.historyIndex ∧ m.historyIndex < (m.history.length : Int) then
    if 0 < (goSplitNewline (m.history.getD m.historyIndex.toNat [])).length then
      clearAutocomplete { m with
        lines := goSplitNewline (m.history.getD m.historyIndex.toNat [])
        cursorRow := (goSplitNewline (m.history.getD m.historyIndex.toNat [])).length - 1
        cursorCol :=
          ((goSplitNewline (m.history.getD m.historyIndex.toNat [])).getD
            ((goSplitNewline (m.history.getD m.historyIndex.toNat [])).length - 1) []).length }
    else
      clearAutocomplete { m with lines := [[]], cursorRow := 0, cursorCol := 0 }
  else m

/-- `navigateHistoryUp`: enter browsing at the newest entry, or step to an
older one; at the oldest entry (or with empty history) do nothing. -/
def navigateHistoryUp (m : PromptModel) : PromptModel :=
  if m.history.length = 0 then m
  else if m.historyIndex = -1 then
    loadHistoryEntry { m with historyIndex := (m.history.length : Int) - 1 }
  else if 0 < m.historyIndex then
    loadHistoryEntry { m with historyIndex := m.historyIndex - 1 }
  else m

/-- `navigateHistoryDown`: step to a newer entry, or exit browsing past
the newest one by resetting to a single empty line. -/
def navigateHistoryDown (m : PromptModel) : PromptModel :=
  if m.historyIndex = -1 then m
  else if m.historyIndex < (m.history.length : Int) - 1 then
    loadHistoryEntry { m with historyIndex := m.historyIndex + 1 }
  else
    clearAutocomplete { m with
      historyIndex := -1
      lines := [[]]
      cursorRow := 0
      cursorCol := 0 }

/-! ## Submission -/

/-- `joinNonEmptyLines`: join the lines with `'\n'` after dropping
trailing whitespace-only lines. -/
def joinNonEmptyLines (lines : List (List Nat)) : List Nat :=
  List.intercalate [10]
    ((lines.reverse.dropWhile (fun l => (goTrimSpace l).isEmpty)).reverse)

/-- `getCurrentInput`: the processed input string of the model. -/
def getCurrentInput (m : PromptModel) : List Nat :=
  joinNonEmptyLines m.lines

/-- The `fmt.Sprintf` wrapper around `ExecuteFn` output:
`"\n--- Executing ---\n%s\n-----------------\n"` as bytes. -/
def execOutputWrap (output : List Nat) : List Nat :=
  [10, 45, 45, 45, 32, 69, 120, 101, 99, 117, 116, 105, 110, 103, 32, 45, 45, 45, 10] ++
    output ++ [10] ++ List.replicate 17 45 ++ [10]

/-- The fallback display text `"\n--- No ExecuteFn Configured ---\n"`. -/
def noExecuteFnMsg : List Nat :=
  [10, 45, 45, 45, 32, 78, 111, 32, 69, 120, 101, 99, 117, 116, 101, 70, 110, 32, 67,
   111, 110, 102, 105, 103, 117, 114, 101, 100, 32, 45, 45, 45, 10]

/-- The execution block of `handleEnter`: call the configured `ExecuteFn`
and store its wrapped output (the `execLog` append marks the invocation),
or store the fixed placeholder when none is configured. -/
def executeStep (m : PromptModel) (fullInput : List Nat) : PromptModel :=
  match m.config.executeFn with
  | some f =>
    { m with
      lastOutput := execOutputWrap (f fullInput)
      execLog := m.execLog ++ [fullInput] }
  | none => { m with lastOutput := noExecuteFnMsg }

/-- The history block of `handleEnter`: append the submitted command iff
it is not just whitespace. -/
def recordHistory (m : PromptModel) (fullInput : List Nat) : PromptModel :=
  if goTrimSpace fullInput ≠ [] then { m with history := m.history ++ [fullInput] }
  else m

/-- `handleEnter`: submit when the configured completeness predicate says
the joined input is complete and its trimmed form is not the bare `";"` —
run `executeStep`, then `recordHistory`, then reset the buffer, the
history index and autocomplete. Otherwise insert a newline and clear
autocomplete. -/
def handleEnter (m : PromptModel) : PromptModel :=
  if m.config.isCompleteFn (getCurrentInput m) = true ∧
      goTrimSpace (getCurrentInput m) ≠ [59] then
    clearAutocomplete
      { recordHistory (executeStep m (getCurrentInput m)) (getCurrentInput m) with
        lines := [[]]
        cursorRow := 0
        cursorCol := 0
        historyIndex := -1 }
  else
    clearAutocomplete (insertNewline m)

/-! ## Dispatch -/

/-- `handleUpArrow`: suggestions first, then history (only from the top
row), then plain cursor movement. -/
def handleUpArrow (m : PromptModel) : PromptModel :=
  if m.showPopup = true then navigateAutocompleteUp m
  else if m.cursorRow = 0 then navigateHistoryUp m
  else moveCursorUp m

/-- `handleDownArrow`: suggestions first, then history when browsing,
then plain cursor movement. -/
def handleDownArrow (m : PromptModel) : PromptModel :=
  if m.showPopup = true then navigateAutocompleteDown m
  else if m.historyIndex ≠ -1 then navigateHistoryDown m
  else moveCursorDown m

/-- `handleKeyPress`: clear the previous output for every key type except
Enter, then dispatch. Ctrl+C/Esc quit the host program (the model state is
unchanged); unhandled key types are ignored. -/
def handleKeyPress (m0 : PromptModel) (e : KeyEvent) : PromptModel :=
  let m := if e = KeyEvent.enter then m0 else clearLastOutputOnEdit m0 e
  match e with
  | .ctrlC => m
  | .esc => m
  | .enter => handleEnter m
  | .backspace => updateAutocomplete (deleteBeforeCursor m)
  | .tab => applyAutocomplete m
  | .up => handleUpArrow m
  | .down => handleDownArrow m
  | .left => clearAutocomplete (moveCursorLeft m)
  | .right => clearAutocomplete (moveCursorRight m)
  | .space => updateAutocomplete (insertCharacter m 32)
  | .runes rs => updateAutocomplete (insertRunes m rs)
  | .other => m

/-- Run the model from `NewPromptModel config` over a list of key events. -/
def runEvents (config : PromptConfig) (evs : List KeyEvent) : PromptModel :=
  evs.foldl handleKeyPress (NewPromptModel config)

/-! ## Basic field lemmas

Projection facts used throughout: which fields each operation leaves
untouched, and the shape of the fields it sets. All are immediate from
the definitions. -/

@[simp] theorem clearAutocomplete_config (m : PromptModel) :
    (clearAutocomplete m).config = m.config := rfl

@[simp] theorem clearAutocomplete_lines (m : PromptModel) :
    (clearAutocomplete m).lines = m.lines := rfl

@[simp] theorem clearAutocomplete_cursorRow (m : PromptModel) :
    (clearAutocomplete m).cursorRow = m.cursorRow := rfl

@[simp] theorem clearAutocomplete_cursorCol (m : PromptModel) :
    (clearAutocomplete m).cursorCol = m.cursorCol := rfl

@[simp] theorem clearAutocomplete_history (m : PromptModel) :
    (clearAutocomplete m).history = m.history := rfl

@[simp] theorem clearAutocomplete_historyIndex (m : PromptModel) :
    (clearAutocomplete m).historyIndex = m.historyIndex := rfl

@[simp] theorem clearAutocomplete_lastOutput (m : PromptModel) :
    (clearAutocomplete m).lastOutput = m.lastOutput := rfl

@[simp] theorem clearAutocomplete_execLog (m : PromptModel) :
    (clearAutocomplete m).execLog = m.execLog := rfl

@[simp] theorem clearAutocomplete_acLog (m : PromptModel) :
    (clearAutocomplete m).acLog = m.acLog := rfl

@[simp] theorem clearAutocomplete_suggestions (m : PromptModel) :
    (clearAutocomplete m).suggestions = [] := rfl

@[simp] theorem clearAutocomplete_showPopup (m : PromptModel) :
    (clearAutocomplete m).showPopup = false := rfl

@[simp] theorem clearAutocomplete_selectedSuggestionIndex (m : PromptModel) :
    (clearAutocomplete m).selectedSuggestionIndex = 0 := rfl

@[simp] theorem clearAutocomplete_lastSuggestedWord (m : PromptModel) :
    (clearAutocomplete m).lastSuggestedWord = [] := rfl

@[simp] theorem clearAutocomplete_popupScrollOffset (m : PromptModel) :
    (clearAutocomplete m).popupScrollOffset = 0 := rfl

@[simp] theorem insertNewline_history (m : PromptModel) :
    (insertNewline m).history = m.history := by
  simp only [insertNewline]
  split <;> split
  any_goals rfl
  all_goals split <;> rfl

@[simp] theorem insertNewline_execLog (m : PromptModel) :
    (insertNewline m).execLog = m.execLog := by
  simp only [insertNewline]
  split <;> split
  any_goals rfl
  all_goals split <;> rfl

@[simp] theorem insertNewline_acLog (m : PromptModel) :
    (insertNewline m).acLog = m.acLog := by
  simp only [insertNewline]
  split <;> split
  any_goals rfl
  all_goals split <;> rfl

@[simp] theorem insertNewline_lastOutput (m : PromptModel) :
    (insertNewline m).lastOutput = m.lastOutput := by
  simp only [insertNewline]
  split <;> split
  any_goals rfl
  all_goals split <;> rfl

@[simp] theorem insertNewline_historyIndex (m : PromptModel) :
    (insertNewline m).historyIndex = m.historyIndex := by
  simp only [insertNewline]
  split <;> split
  any_goals rfl
  all_goals split <;> rfl

@[simp] theorem insertNewline_config (m : PromptModel) :
    (insertNewline m).config = m.config := by
  simp only [insertNewline]
  split <;> split
  any_goals rfl
  all_goals split <;> rfl

@[simp] theorem insertNewline_showPopup (m : PromptModel) :
    (insertNewline m).showPopup = m.showPopup := by
  simp only [insertNewline]
  split <;> split
  any_goals rfl
  all_goals split <;> rfl

@[simp] theorem insertNewline_suggestions (m : PromptModel) :
    (insertNewline m).suggestions = m.suggestions := by
  simp only [insertNewline]
  split <;> split
  any_goals rfl
  all_goals split <;> rfl

/-! ## Concrete test data

An ASCII stand-in for the host's word-character classifier (matching the
behavior of `DefaultIsWordChar` on ASCII input: letters, digits, `_`, `.`)
and a few configurations used by concrete evaluations below. -/

/-- ASCII letters, digits, underscore and period. -/
def asciiWordChar (r : Nat) : Bool :=
  decide ((48 ≤ r ∧ r ≤ 57) ∨ (65 ≤ r ∧ r ≤ 90) ∨ (97 ≤ r ∧ r ≤ 122) ∨ r = 95 ∨ r = 46)

/-- A base configuration: default completeness check, ASCII classifier, an
execute callback returning `"ok"`, no autocomplete provider. -/
def testConfig : PromptConfig :=
  { autoCompleteFn := none
    executeFn := some (fun _ => [111, 107])
    isCompleteFn := DefaultIsComplete
    isWordCharFn := asciiWordChar
    popupMaxHeight := 6 }

/-- `testConfig` with a provider whose single suggestion is the non-ASCII
text `"é"` (bytes `C3 A9`, one codepoint). -/
def testConfigE : PromptConfig :=
  { testConfig with autoCompleteFn := some (fun _ _ => [⟨[0xC3, 0xA9], []⟩]) }

/-- `testConfig` with a provider whose single suggestion is the ASCII text
`"ab"`. -/
def testConfigAB : PromptConfig :=
  { testConfig with autoCompleteFn := some (fun _ _ => [⟨[97, 98], []⟩]) }

/-! ## C1 — Enter on a complete input whose trimmed form is `";"` -/

/-- C1, counterexample: with the default completeness predicate, typing
`";"` and pressing Enter leaves `[";" , ""]` in the buffer with the cursor
at `(1,0)` — the newline-insertion path is TAKEN and the buffer is NOT
reset to a single empty line, contrary to the claim (while indeed nothing
is executed or recorded). -/
theorem C1_counterexample :
    (runEvents testConfig [KeyEvent.runes [59], KeyEvent.enter]).lines = [[59], []] ∧
    (runEvents testConfig [KeyEvent.runes [59], KeyEvent.enter]).lines ≠ [[]] ∧
    (runEvents testConfig [KeyEvent.runes [59], KeyEvent.enter]).cursorRow = 1 ∧
    (runEvents testConfig [KeyEvent.runes [59], KeyEvent.enter]).cursorCol = 0 ∧
    (runEvents testConfig [KeyEvent.runes [59], KeyEvent.enter]).execLog = [] ∧
    (runEvents testConfig [KeyEvent.runes [59], KeyEvent.enter]).history = [] := by
  decide

/-- C1, amended: when the completeness predicate accepts the joined input
but its trimmed form is exactly `";"`, Enter executes nothing and records
nothing, and instead TAKES the newline-insertion path: the result is
`insertNewline` followed by `clearAutocomplete`, with history, execution
log and last output untouched (the buffer is not reset). -/
theorem C1_amended (m : PromptModel)
    (hc : m.config.isCompleteFn (getCurrentInput m) = true)
    (hs : goTrimSpace (getCurrentInput m) = [59]) :
    handleKeyPress m KeyEvent.enter = clearAutocomplete (insertNewline m) ∧
    (handleKeyPress m KeyEvent.enter).history = m.history ∧
    (handleKeyPress m KeyEvent.enter).execLog = m.execLog ∧
    (handleKeyPress m KeyEvent.enter).lastOutput = m.lastOutput := by
  have h : handleKeyPress m KeyEvent.enter = clearAutocomplete (insertNewline m) := by
    show handleEnter m = clearAutocomplete (insertNewline m)
    unfold handleEnter
    rw [if_neg]
    intro hand
    exact hand.2 hs
  refine ⟨h, ?_, ?_, ?_⟩ <;> rw [h] <;> simp

/-- C1, witness for the amended theorem: the singleton-`";"` buffer. -/
theorem C1_amended_witness :
    handleKeyPress { NewPromptModel testConfig with lines := [[59]], cursorCol := 1 }
        KeyEvent.enter =
      clearAutocomplete
        (insertNewline { NewPromptModel testConfig with lines := [[59]], cursorCol := 1 }) ∧
    (handleKeyPress { NewPromptModel testConfig with lines := [[59]], cursorCol := 1 }
        KeyEvent.enter).history =
      ({ NewPromptModel testConfig with lines := [[59]], cursorCol := 1 } : PromptModel).history ∧
    (handleKeyPress { NewPromptModel testConfig with lines := [[59]], cursorCol := 1 }
        KeyEvent.enter).execLog =
      ({ NewPromptModel testConfig with lines := [[59]], cursorCol := 1 } : PromptModel).execLog ∧
    (handleKeyPress { NewPromptModel testConfig with lines := [[59]], cursorCol := 1 }
        KeyEvent.enter).lastOutput =
      ({ NewPromptModel testConfig with lines := [[59]], cursorCol := 1 } : PromptModel).lastOutput :=
  C1_amended { NewPromptModel testConfig with lines := [[59]], cursorCol := 1 }
    (by decide) (by decide)

/-! ## C2 — cursor validity in codepoints -/

/-- C2, evaluation at the failing input: from a fresh prompt, typing `é`
(U+00E9) and pressing Right yields `cursorCol = 2` on a line of ONE
codepoint (the movement code measures the line in bytes), violating
`cursorCol ≤ codepointLength(lines[cursorRow])`. -/
theorem C2_bug_eval :
    (runEvents testConfig [KeyEvent.runes [233], KeyEvent.right]).cursorCol = 2 ∧
    runeLength ((runEvents testConfig [KeyEvent.runes [233], KeyEvent.right]).lines.getD
      (runEvents testConfig [KeyEvent.runes [233], KeyEvent.right]).cursorRow []) = 1 ∧
    ¬ (runEvents testConfig [KeyEvent.runes [233], KeyEvent.right]).cursorCol ≤
      runeLength ((runEvents testConfig [KeyEvent.runes [233], KeyEvent.right]).lines.getD
        (runEvents testConfig [KeyEvent.runes [233], KeyEvent.right]).cursorRow []) := by
  decide

/-! ## C3 — word fragment and suggestion application -/

/-- C3, evaluation at the failing input: with a provider suggesting the
one-codepoint text `"é"`, typing `a` and pressing Tab replaces the
fragment correctly but sets `cursorCol` to `0 + len("é") = 2` — the BYTE
length of the suggestion — instead of the end of the inserted text at
codepoint 1, leaving the cursor past the end of the line. -/
theorem C3_bug_eval :
    (runEvents testConfigE [KeyEvent.runes [97], KeyEvent.tab]).lines = [[195, 169]] ∧
    (runEvents testConfigE [KeyEvent.runes [97], KeyEvent.tab]).cursorCol = 2 ∧
    runeLength [195, 169] = 1 := by
  decide

/-! ## C7 — deleteBeforeCursor -/

/-- C7, evaluation at the failing input: from a fresh prompt, typing `é`
(stored as bytes `C3 A9`) and pressing Backspace removes one BYTE, not
one codepoint: the line becomes the invalid byte `A9` (one replacement
codepoint when decoded) instead of the empty line the claim requires. -/
theorem C7_bug_eval :
    (runEvents testConfig [KeyEvent.runes [233], KeyEvent.backspace]).lines = [[169]] ∧
    (runEvents testConfig [KeyEvent.runes [233], KeyEvent.backspace]).lines ≠ [[]] ∧
    (runEvents testConfig [KeyEvent.runes [233], KeyEvent.backspace]).cursorCol = 0 := by
  decide

/-! ## C10 — control-character-only insertions are a no-op -/

/-- C10: `insertRunes` with only control runes (all codepoints below
U+0020) changes nothing at all — in particular `historyIndex` keeps its
value, because the function returns before the browse-cancelling
assignment. -/
theorem C10_control_noop (m : PromptModel) (rs : List Nat)
    (h : ∀ r ∈ rs, r < 32) :
    insertRunes m rs = m := by
  have hf : rs.filter (fun r => 32 ≤ r) = [] := by
    induction rs with
    | nil => rfl
    | cons a t ih =>
      have ha : a < 32 := h a (by simp)
      simp only [List.filter_cons]
      rw [if_neg (by simpa using Nat.not_le.mpr ha)]
      exact ih fun r hr => h r (by simp [hr])
  unfold insertRunes
  rw [if_pos hf]

/-- C10, witness: three control runes inserted into a model that is
actively browsing history (`historyIndex = 1`). -/
theorem C10_control_noop_witness :
    insertRunes { NewPromptModel testConfig with
        lines := [[97]], cursorCol := 1, history := [[97], [98]], historyIndex := 1 }
      [7, 27, 31] =
    { NewPromptModel testConfig with
        lines := [[97]], cursorCol := 1, history := [[97], [98]], historyIndex := 1 } :=
  C10_control_noop
    { NewPromptModel testConfig with
        lines := [[97]], cursorCol := 1, history := [[97], [98]], historyIndex := 1 }
    [7, 27, 31] (by decide)

/-! ## C6 — successful submission -/

@[simp] theorem recordHistory_execLog (m : PromptModel) (inp : List Nat) :
    (recordHistory m inp).execLog = m.execLog := by
  unfold recordHistory; split <;> rfl

@[simp] theorem recordHistory_lines (m : PromptModel) (inp : List Nat) :
    (recordHistory m inp).lines = m.lines := by
  unfold recordHistory; split <;> rfl

theorem recordHistory_history (m : PromptModel) (inp : List Nat) :
    (recordHistory m inp).history =
      m.history ++ (if goTrimSpace inp ≠ [] then [inp] else []) := by
  unfold recordHistory; split <;> simp_all

@[simp] theorem executeStep_history (m : PromptModel) (inp : List Nat) :
    (executeStep m inp).history = m.history := by
  unfold executeStep; split <;> rfl

theorem executeStep_execLog (m : PromptModel) (inp : List Nat) (f : List Nat → List Nat)
    (hf : m.config.executeFn = some f) :
    (executeStep m inp).execLog = m.execLog ++ [inp] := by
  unfold executeStep
  rw [hf]

/-- C6: with an execute callback configured, when Enter finds the joined
input complete and not the bare `";"`, the callback is invoked exactly
once with exactly that input (the execution log grows by that one entry),
the input is appended to history iff its trimmed form is non-empty, the
buffer is reset to a single empty line with the cursor at the origin, the
history index is the `-1` sentinel, and the suggestion state is fully
cleared. -/
theorem C6_submit (m : PromptModel) (f : List Nat → List Nat) (inp : List Nat)
    (hf : m.config.executeFn = some f)
    (hinp : getCurrentInput m = inp)
    (hc : m.config.isCompleteFn inp = true)
    (hs : goTrimSpace inp ≠ [59]) :
    (handleKeyPress m KeyEvent.enter).execLog = m.execLog ++ [inp] ∧
    (handleKeyPress m KeyEvent.enter).history =
      m.history ++ (if goTrimSpace inp ≠ [] then [inp] else []) ∧
    (handleKeyPress m KeyEvent.enter).lines = [[]] ∧
    (handleKeyPress m KeyEvent.enter).cursorRow = 0 ∧
    (handleKeyPress m KeyEvent.enter).cursorCol = 0 ∧
    (handleKeyPress m KeyEvent.enter).historyIndex = -1 ∧
    (handleKeyPress m KeyEvent.enter).suggestions = [] ∧
    (handleKeyPress m KeyEvent.enter).showPopup = false ∧
    (handleKeyPress m KeyEvent.enter).selectedSuggestionIndex = 0 ∧
    (handleKeyPress m KeyEvent.enter).lastSuggestedWord = [] ∧
    (handleKeyPress m KeyEvent.enter).popupScrollOffset = 0 := by
  have h : handleKeyPress m KeyEvent.enter =
      clearAutocomplete
        { recordHistory (executeStep m (getCurrentInput m)) (getCurrentInput m) with
          lines := [[]]
          cursorRow := 0
          cursorCol := 0
          historyIndex := -1 } := by
    show handleEnter m = _
    unfold handleEnter
    rw [if_pos]
    exact ⟨by rw [hinp]; exact hc, by rw [hinp]; exact hs⟩
  rw [h, hinp]
  refine ⟨?_, ?_, rfl, rfl, rfl, rfl, rfl, rfl, rfl, rfl, rfl⟩
  · show (recordHistory (executeStep m inp) inp).execLog = m.execLog ++ [inp]
    rw [recordHistory_execLog, executeStep_execLog m inp f hf]
  · show (recordHistory (executeStep m inp) inp).history =
      m.history ++ (if goTrimSpace inp ≠ [] then [inp] else [])
    rw [recordHistory_history, executeStep_history]

/-- C6, witness: submitting the complete input `"x;"`. -/
theorem C6_submit_witness :
    (handleKeyPress { NewPromptModel testConfig with lines := [[120, 59]], cursorCol := 2 }
        KeyEvent.enter).execLog =
      ({ NewPromptModel testConfig with
          lines := [[120, 59]], cursorCol := 2 } : PromptModel).execLog ++ [[120, 59]] ∧
    (handleKeyPress { NewPromptModel testConfig with lines := [[120, 59]], cursorCol := 2 }
        KeyEvent.enter).history =
      ({ NewPromptModel testConfig with
          lines := [[120, 59]], cursorCol := 2 } : PromptModel).history ++
        (if goTrimSpace [120, 59] ≠ [] then [[120, 59]] else []) ∧
    (handleKeyPress { NewPromptModel testConfig with lines := [[120, 59]], cursorCol := 2 }
        KeyEvent.enter).lines = [[]] ∧
    (handleKeyPress { NewPromptModel testConfig with lines := [[120, 59]], cursorCol := 2 }
        KeyEvent.enter).cursorRow = 0 ∧
    (handleKeyPress { NewPromptModel testConfig with lines := [[120, 59]], cursorCol := 2 }
        KeyEvent.enter).cursorCol = 0 ∧
    (handleKeyPress { NewPromptModel testConfig with lines := [[120, 59]], cursorCol := 2 }
        KeyEvent.enter).historyIndex = -1 ∧
    (handleKeyPress { NewPromptModel testConfig with lines := [[120, 59]], cursorCol := 2 }
        KeyEvent.enter).suggestions = [] ∧
    (handleKeyPress { NewPromptModel testConfig with lines := [[120, 59]], cursorCol := 2 }
        KeyEvent.enter).showPopup = false ∧
    (handleKeyPress { NewPromptModel testConfig with lines := [[120, 59]], cursorCol := 2 }
        KeyEvent.enter).selectedSuggestionIndex = 0 ∧
    (handleKeyPress { NewPromptModel testConfig with lines := [[120, 59]], cursorCol := 2 }
        KeyEvent.enter).lastSuggestedWord = [] ∧
    (handleKeyPress { NewPromptModel testConfig with lines := [[120, 59]], cursorCol := 2 }
        KeyEvent.enter).popupScrollOffset = 0 :=
  C6_submit { NewPromptModel testConfig with lines := [[120, 59]], cursorCol := 2 }
    (fun _ => [111, 107]) [120, 59] rfl (by decide) (by decide) (by decide)

/-! ## C4 — autocomplete update -/

/-- A non-empty fragment certifies that the cursor row is in range, the
column is positive and within the line's rune count, and the rune left of
the cursor passes the classifier (the guards of `currentWordFragment`). -/
theorem currentWordFragment_ne_nil (m : PromptModel) (p : Nat → Bool)
    (h : currentWordFragment m p ≠ []) :
    m.cursorRow < m.lines.length ∧ 0 < m.cursorCol ∧
    m.cursorCol ≤ (utf8Decode (m.lines.getD m.cursorRow [])).length ∧
    p ((utf8Decode (m.lines.getD m.cursorRow [])).getD (m.cursorCol - 1) 0) = true := by
  unfold currentWordFragment at h
  by_cases h1 : m.lines.length ≤ m.cursorRow
  · rw [if_pos h1] at h; exact absurd rfl h
  rw [if_neg h1] at h
  by_cases h2 : m.cursorCol = 0
  · rw [if_pos h2] at h; exact absurd rfl h
  rw [if_neg h2] at h
  by_cases h3 : (utf8Decode (m.lines.getD m.cursorRow [])).length < m.cursorCol
  · rw [if_pos h3] at h; exact absurd rfl h
  rw [if_neg h3] at h
  by_cases h4 : wordScanStart p (utf8Decode (m.lines.getD m.cursorRow [])) m.cursorCol <
        m.cursorCol ∧ 0 < m.cursorCol ∧
      p ((utf8Decode (m.lines.getD m.cursorRow [])).getD (m.cursorCol - 1) 0) = true
  · exact ⟨Nat.lt_of_not_le h1, h4.2.1, Nat.le_of_not_lt h3, h4.2.2⟩
  · rw [if_neg h4] at h; exact absurd rfl h

/-- With a non-empty fragment, the `clear` flag of `updateAutocomplete` is
false: all of its extra guards are implied by the fragment's own guards. -/
theorem autocompleteClearCond_of_fragment (m : PromptModel)
    (h : currentWordFragment m m.config.isWordCharFn ≠ []) :
    autocompleteClearCond m = false := by
  obtain ⟨h1, h2, h3, h4⟩ := currentWordFragment_ne_nil m m.config.isWordCharFn h
  unfold autocompleteClearCond
  rw [if_neg h, if_pos ⟨h2, h1⟩, if_neg, if_neg (Nat.not_lt.mpr h3)]
  intro hand
  exact hand.2 h4

/-- C4: on an autocomplete update with a configured provider and a
non-empty fragment `w`: if `w` differs from the stored fragment, the
selection and scroll reset to 0, the provider is invoked with
`(textBeforeCursor, w)` (one new `acLog` entry), its result is stored
verbatim, visibility becomes `0 < items.length`, and the stored fragment
becomes `w`; if `w` is unchanged, the popup is hidden when the item list
is empty and otherwise the state is completely untouched (no provider
call). -/
theorem C4_update (m : PromptModel) (f : List Nat → List Nat → List Suggestion)
    (w : List Nat)
    (hf : m.config.autoCompleteFn = some f)
    (hw : currentWordFragment m m.config.isWordCharFn = w)
    (hne : w ≠ []) :
    (w ≠ m.lastSuggestedWord →
      updateAutocomplete m =
        { m with
          selectedSuggestionIndex := 0
          popupScrollOffset := 0
          suggestions := f (getTextBeforeCursor m) w
          showPopup := decide (0 < (f (getTextBeforeCursor m) w).length)
          lastSuggestedWord := w
          acLog := m.acLog ++ [(getTextBeforeCursor m, w)] }) ∧
    (w = m.lastSuggestedWord →
      (m.suggestions = [] → updateAutocomplete m = { m with showPopup := false }) ∧
      (m.suggestions ≠ [] → updateAutocomplete m = m)) := by
  have hclr : autocompleteClearCond m = false :=
    autocompleteClearCond_of_fragment m (by rw [hw]; exact hne)
  constructor
  · intro hdiff
    unfold updateAutocomplete
    rw [hclr, if_neg (by simp), hw, if_pos hdiff, hf]
  · intro hsame
    constructor
    · intro hempty
      unfold updateAutocomplete
      rw [hclr, if_neg (by simp), hw, if_neg (by simp [hsame]),
        if_pos (by simp [hempty])]
    · intro hnonempty
      unfold updateAutocomplete
      rw [hclr, if_neg (by simp), hw, if_neg (by simp [hsame]),
        if_neg (by simp [List.length_eq_zero, hnonempty])]

/-- C4, witness: the fresh-fragment branch and the unchanged-fragment
branch at the concrete state "line `a`, cursor after it". -/
theorem C4_update_witness :
    (([97] : List Nat) ≠
        ({ NewPromptModel testConfigAB with lines := [[97]], cursorCol := 1 } :
          PromptModel).lastSuggestedWord →
      updateAutocomplete { NewPromptModel testConfigAB with lines := [[97]], cursorCol := 1 } =
        { { NewPromptModel testConfigAB with lines := [[97]], cursorCol := 1 } with
          selectedSuggestionIndex := 0
          popupScrollOffset := 0
          suggestions := (fun _ _ => [⟨[97, 98], []⟩])
            (getTextBeforeCursor
              { NewPromptModel testConfigAB with lines := [[97]], cursorCol := 1 }) [97]
          showPopup := decide (0 < ((fun _ _ => [(⟨[97, 98], []⟩ : Suggestion)])
            (getTextBeforeCursor
              { NewPromptModel testConfigAB with lines := [[97]], cursorCol := 1 })
            [97]).length)
          lastSuggestedWord := [97]
          acLog :=
            ({ NewPromptModel testConfigAB with lines := [[97]], cursorCol := 1 } :
              PromptModel).acLog ++
            [(getTextBeforeCursor
                { NewPromptModel testConfigAB with lines := [[97]], cursorCol := 1 }, [97])] }) ∧
    (([97] : List Nat) =
        ({ NewPromptModel testConfigAB with lines := [[97]], cursorCol := 1 } :
          PromptModel).lastSuggestedWord →
      (({ NewPromptModel testConfigAB with lines := [[97]], cursorCol := 1 } :
          PromptModel).suggestions = [] →
        updateAutocomplete { NewPromptModel testConfigAB with lines := [[97]], cursorCol := 1 } =
          { { NewPromptModel testConfigAB with lines := [[97]], cursorCol := 1 } with
            showPopup := false }) ∧
      (({ NewPromptModel testConfigAB with lines := [[97]], cursorCol := 1 } :
          PromptModel).suggestions ≠ [] →
        updateAutocomplete { NewPromptModel testConfigAB with lines := [[97]], cursorCol := 1 } =
          { NewPromptModel testConfigAB with lines := [[97]], cursorCol := 1 })) :=
  C4_update { NewPromptModel testConfigAB with lines := [[97]], cursorCol := 1 }
    (fun _ _ => [⟨[97, 98], []⟩]) [97] rfl (by decide) (by decide)

/-! ## C5 — scroll/selection coupling -/

/-- One navigation call: `true` is `selectNext`
(`navigateAutocompleteDown`), `false` is `selectPrevious`
(`navigateAutocompleteUp`). -/
def navStep (m : PromptModel) (b : Bool) : PromptModel :=
  if b then navigateAutocompleteDown m else navigateAutocompleteUp m

/-- The coupling invariant of the suggestion window. -/
def navInv (m : PromptModel) : Prop :=
  m.popupScrollOffset ≤ m.selectedSuggestionIndex ∧
  m.selectedSuggestionIndex < m.popupScrollOffset + m.config.popupMaxHeight

theorem navigateAutocompleteUp_inv (m : PromptModel)
    (hh : 1 ≤ m.config.popupMaxHeight) (h : navInv m) : navInv (navigateAutocompleteUp m) := by
  obtain ⟨h1, h2⟩ := h
  unfold navigateAutocompleteUp
  split
  next hg =>
    have hn : 0 < m.suggestions.length := hg.2
    split
    · constructor <;> simp only [] <;> omega
    · split
      · constructor <;> simp only [] <;> omega
      · constructor <;> simp only [] <;> omega
  · exact ⟨h1, h2⟩

theorem navigateAutocompleteDown_inv (m : PromptModel)
    (hh : 1 ≤ m.config.popupMaxHeight) (h : navInv m) : navInv (navigateAutocompleteDown m) := by
  obtain ⟨h1, h2⟩ := h
  unfold navigateAutocompleteDown
  split
  next hg =>
    have hn : 0 < m.suggestions.length := hg.2
    split
    · constructor <;> simp only [] <;> omega
    · split
      · constructor <;> simp only [] <;> omega
      · constructor <;> simp only [] <;> omega
  · exact ⟨h1, h2⟩

theorem navStep_config (m : PromptModel) (b : Bool) : (navStep m b).config = m.config := by
  unfold navStep navigateAutocompleteUp navigateAutocompleteDown
  repeat' split
  all_goals rfl

/-- C5: with a positive window height, starting from the reset state
(`selectedIndex = 0`, `scrollOffset = 0`), every sequence of
`selectPrevious`/`selectNext` calls maintains
`scrollOffset ≤ selectedIndex < scrollOffset + windowHeight`. -/
theorem C5_scroll_invariant (m : PromptModel)
    (hsel : m.selectedSuggestionIndex = 0)
    (hoff : m.popupScrollOffset = 0)
    (hh : 1 ≤ m.config.popupMaxHeight)
    (evs : List Bool) :
    (evs.foldl navStep m).popupScrollOffset ≤
      (evs.foldl navStep m).selectedSuggestionIndex ∧
    (evs.foldl navStep m).selectedSuggestionIndex <
      (evs.foldl navStep m).popupScrollOffset +
        (evs.foldl navStep m).config.popupMaxHeight := by
  have h0 : navInv m := by unfold navInv; omega
  clear hsel hoff
  induction evs generalizing m with
  | nil => exact h0
  | cons b t ih =>
    have hc : (navStep m b).config = m.config := navStep_config m b
    have hstep : navInv (navStep m b) := by
      unfold navStep
      split
      · exact navigateAutocompleteDown_inv m hh h0
      · exact navigateAutocompleteUp_inv m hh h0
    simpa using ih (navStep m b) (by rw [hc]; exact hh) hstep

/-- C5, witness: a two-item visible list navigated down three times and
up once. -/
theorem C5_scroll_invariant_witness :
    (([true, true, true, false].foldl navStep
        { NewPromptModel testConfig with
          suggestions := [⟨[97], []⟩, ⟨[98], []⟩], showPopup := true }).popupScrollOffset ≤
      ([true, true, true, false].foldl navStep
        { NewPromptModel testConfig with
          suggestions := [⟨[97], []⟩, ⟨[98], []⟩], showPopup := true }).selectedSuggestionIndex) ∧
    ([true, true, true, false].foldl navStep
        { NewPromptModel testConfig with
          suggestions := [⟨[97], []⟩, ⟨[98], []⟩], showPopup := true }).selectedSuggestionIndex <
      ([true, true, true, false].foldl navStep
          { NewPromptModel testConfig with
            suggestions := [⟨[97], []⟩, ⟨[98], []⟩], showPopup := true }).popupScrollOffset +
        ([true, true, true, false].foldl navStep
            { NewPromptModel testConfig with
              suggestions := [⟨[97], []⟩, ⟨[98], []⟩],
              showPopup := true }).config.popupMaxHeight :=
  C5_scroll_invariant
    { NewPromptModel testConfig with
      suggestions := [⟨[97], []⟩, ⟨[98], []⟩], showPopup := true }
    rfl rfl (by decide) [true, true, true, false]

/-! ## C8 — buffer non-emptiness -/

theorem splitNewlineAux_ne_nil (l cur : List Nat) : splitNewlineAux cur l ≠ [] := by
  induction l generalizing cur with
  | nil => simp [splitNewlineAux]
  | cons b rest ih =>
    unfold splitNewlineAux
    split
    · simp
    · exact ih _

theorem goSplitNewline_ne_nil (l : List Nat) : goSplitNewline l ≠ [] :=
  splitNewlineAux_ne_nil l []

theorem cleanupExtraBlankLinesAux_ne_nil (fuel : Nat) (ls : List (List Nat))
    (h : ls ≠ []) : cleanupExtraBlankLinesAux fuel ls ≠ [] := by
  induction fuel generalizing ls with
  | zero => exact h
  | succ f ih =>
    unfold cleanupExtraBlankLinesAux
    split
    next hcond =>
      refine ih _ ?_
      have h1 : 1 < ls.length := hcond.1
      have : 0 < (ls.take (ls.length - 1)).length := by
        rw [List.length_take]
        omega
      exact List.length_pos.mp this
    · exact h

theorem cleanupExtraBlankLines_ne_nil (ls : List (List Nat)) (h : ls ≠ []) :
    cleanupExtraBlankLines ls ≠ [] :=
  cleanupExtraBlankLinesAux_ne_nil ls.length ls h

theorem insertNewline_lines_ne_nil (m : PromptModel) : (insertNewline m).lines ≠ [] := by
  simp only [insertNewline]
  repeat' split
  all_goals
    first
      | exact cleanupExtraBlankLines_ne_nil _ (by
          intro hnil
          have hlen := congrArg List.length hnil
          simp [List.length_append] at hlen)
      | simp

theorem deleteBeforeCursor_lines_ne_nil (m : PromptModel) (h : m.lines ≠ []) :
    (deleteBeforeCursor m).lines ≠ [] := by
  unfold deleteBeforeCursor
  split
  · refine List.length_pos.mp ?_
    rw [List.length_set]
    exact List.length_pos.mpr h
  · split
    next hrow =>
      refine List.length_pos.mp ?_
      rw [List.length_append, List.length_take, List.length_set]
      have : 0 < m.lines.length := List.length_pos.mpr h
      omega
    · exact h

theorem insertRunes_lines_ne_nil (m : PromptModel) (rs : List Nat) (h : m.lines ≠ []) :
    (insertRunes m rs).lines ≠ [] := by
  unfold insertRunes
  split
  · exact h
  · refine List.length_pos.mp ?_
    rw [List.length_set]
    exact List.length_pos.mpr h

theorem applyAutocomplete_lines_ne_nil (m : PromptModel) (h : m.lines ≠ []) :
    (applyAutocomplete m).lines ≠ [] := by
  unfold applyAutocomplete
  split
  · rw [clearAutocomplete_lines]
    refine List.length_pos.mp ?_
    rw [List.length_set]
    exact List.length_pos.mpr h
  · exact h

@[simp] theorem updateAutocomplete_lines (m : PromptModel) :
    (updateAutocomplete m).lines = m.lines := by
  unfold updateAutocomplete
  repeat' split
  all_goals rfl

@[simp] theorem navigateAutocompleteUp_lines (m : PromptModel) :
    (navigateAutocompleteUp m).lines = m.lines := by
  unfold navigateAutocompleteUp
  repeat' split
  all_goals rfl

@[simp] theorem navigateAutocompleteDown_lines (m : PromptModel) :
    (navigateAutocompleteDown m).lines = m.lines := by
  unfold navigateAutocompleteDown
  repeat' split
  all_goals rfl

@[simp] theorem moveCursorUp_lines (m : PromptModel) :
    (moveCursorUp m).lines = m.lines := by
  unfold moveCursorUp
  split <;> rfl

@[simp] theorem moveCursorDown_lines (m : PromptModel) :
    (moveCursorDown m).lines = m.lines := by
  unfold moveCursorDown
  split <;> rfl

@[simp] theorem moveCursorLeft_lines (m : PromptModel) :
    (moveCursorLeft m).lines = m.lines := by
  unfold moveCursorLeft
  repeat' split
  all_goals rfl

@[simp] theorem moveCursorRight_lines (m : PromptModel) :
    (moveCursorRight m).lines = m.lines := by
  unfold moveCursorRight
  repeat' split
  all_goals rfl

theorem loadHistoryEntry_lines_ne_nil (m : PromptModel) (h : m.lines ≠ []) :
    (loadHistoryEntry m).lines ≠ [] := by
  unfold loadHistoryEntry
  split
  · split
    · rw [clearAutocomplete_lines]
      exact goSplitNewline_ne_nil _
    · simp
  · exact h

theorem navigateHistoryUp_lines_ne_nil (m : PromptModel) (h : m.lines ≠ []) :
    (navigateHistoryUp m).lines ≠ [] := by
  unfold navigateHistoryUp
  split
  · exact h
  · split
    · exact loadHistoryEntry_lines_ne_nil _ h
    · split
      · exact loadHistoryEntry_lines_ne_nil _ h
      · exact h

theorem navigateHistoryDown_lines_ne_nil (m : PromptModel) (h : m.lines ≠ []) :
    (navigateHistoryDown m).lines ≠ [] := by
  unfold navigateHistoryDown
  split
  · exact h
  · split
    · exact loadHistoryEntry_lines_ne_nil _ h
    · simp

theorem handleEnter_lines_ne_nil (m : PromptModel) (h : m.lines ≠ []) :
    (handleEnter m).lines ≠ [] := by
  unfold handleEnter
  split
  · simp
  · rw [clearAutocomplete_lines]
    exact insertNewline_lines_ne_nil m

@[simp] theorem clearLastOutputOnEdit_lines (m : PromptModel) (e : KeyEvent) :
    (clearLastOutputOnEdit m e).lines = m.lines := by
  cases e <;> rfl

/-- How `handleKeyPress` dispatches each concrete key type (all are
definitional). -/
theorem handleKeyPress_ctrlC (m : PromptModel) : handleKeyPress m KeyEvent.ctrlC = m := rfl

theorem handleKeyPress_esc (m : PromptModel) : handleKeyPress m KeyEvent.esc = m := rfl

theorem handleKeyPress_other (m : PromptModel) : handleKeyPress m KeyEvent.other = m := rfl

theorem handleKeyPress_enter (m : PromptModel) :
    handleKeyPress m KeyEvent.enter = handleEnter m := rfl

theorem handleKeyPress_backspace (m : PromptModel) :
    handleKeyPress m KeyEvent.backspace =
      updateAutocomplete (deleteBeforeCursor { m with lastOutput := [] }) := rfl

theorem handleKeyPress_tab (m : PromptModel) :
    handleKeyPress m KeyEvent.tab = applyAutocomplete m := rfl

theorem handleKeyPress_up (m : PromptModel) :
    handleKeyPress m KeyEvent.up = handleUpArrow { m with lastOutput := [] } := rfl

theorem handleKeyPress_down (m : PromptModel) :
    handleKeyPress m KeyEvent.down = handleDownArrow { m with lastOutput := [] } := rfl

theorem handleKeyPress_left (m : PromptModel) :
    handleKeyPress m KeyEvent.left =
      clearAutocomplete (moveCursorLeft { m with lastOutput := [] }) := rfl

theorem handleKeyPress_right (m : PromptModel) :
    handleKeyPress m KeyEvent.right =
      clearAutocomplete (moveCursorRight { m with lastOutput := [] }) := rfl

theorem handleKeyPress_space (m : PromptModel) :
    handleKeyPress m KeyEvent.space =
      updateAutocomplete (insertRunes { m with lastOutput := [] } [32]) := rfl

theorem handleKeyPress_runes (m : PromptModel) (rs : List Nat) :
    handleKeyPress m (KeyEvent.runes rs) =
      updateAutocomplete (insertRunes { m with lastOutput := [] } rs) := rfl

theorem handleKeyPress_lines_ne_nil (m : PromptModel) (e : KeyEvent) (h : m.lines ≠ []) :
    (handleKeyPress m e).lines ≠ [] := by
  have h2 : ({ m with lastOutput := ([] : List Nat) } : PromptModel).lines ≠ [] := h
  cases e with
  | ctrlC => exact h
  | esc => exact h
  | other => exact h
  | enter => rw [handleKeyPress_enter]; exact handleEnter_lines_ne_nil _ h
  | backspace =>
    rw [handleKeyPress_backspace, updateAutocomplete_lines]
    exact deleteBeforeCursor_lines_ne_nil _ h2
  | tab =>
    rw [handleKeyPress_tab]
    exact applyAutocomplete_lines_ne_nil _ h
  | up =>
    rw [handleKeyPress_up]
    unfold handleUpArrow
    split
    · rw [navigateAutocompleteUp_lines]; exact h2
    · split
      · exact navigateHistoryUp_lines_ne_nil _ h2
      · rw [moveCursorUp_lines]; exact h2
  | down =>
    rw [handleKeyPress_down]
    unfold handleDownArrow
    split
    · rw [navigateAutocompleteDown_lines]; exact h2
    · split
      · exact navigateHistoryDown_lines_ne_nil _ h2
      · rw [moveCursorDown_lines]; exact h2
  | left =>
    rw [handleKeyPress_left, clearAutocomplete_lines, moveCursorLeft_lines]
    exact h2
  | right =>
    rw [handleKeyPress_right, clearAutocomplete_lines, moveCursorRight_lines]
    exact h2
  | space =>
    rw [handleKeyPress_space, updateAutocomplete_lines]
    exact insertRunes_lines_ne_nil _ _ h2
  | runes rs =>
    rw [handleKeyPress_runes, updateAutocomplete_lines]
    exact insertRunes_lines_ne_nil _ _ h2

/-- C8: for every configuration and every sequence of key events from the
fresh model, the line buffer keeps at least one line. -/
theorem C8_lines_nonempty (config : PromptConfig) (evs : List KeyEvent) :
    1 ≤ (runEvents config evs).lines.length := by
  refine List.length_pos.mpr ?_
  unfold runEvents
  have h0 : (NewPromptModel config).lines ≠ [] := by
    unfold NewPromptModel
    split <;> simp
  generalize NewPromptModel config = m at h0 ⊢
  induction evs generalizing m with
  | nil => exact h0
  | cons e t ih => exact ih _ (handleKeyPress_lines_ne_nil m e h0)

/-! ## C9 — output clearing -/

@[simp] theorem updateAutocomplete_lastOutput (m : PromptModel) :
    (updateAutocomplete m).lastOutput = m.lastOutput := by
  unfold updateAutocomplete
  repeat' split
  all_goals rfl

@[simp] theorem deleteBeforeCursor_lastOutput (m : PromptModel) :
    (deleteBeforeCursor m).lastOutput = m.lastOutput := by
  unfold deleteBeforeCursor
  repeat' split
  all_goals rfl

@[simp] theorem insertRunes_lastOutput (m : PromptModel) (rs : List Nat) :
    (insertRunes m rs).lastOutput = m.lastOutput := by
  unfold insertRunes
  split <;> rfl

@[simp] theorem moveCursorUp_lastOutput (m : PromptModel) :
    (moveCursorUp m).lastOutput = m.lastOutput := by
  unfold moveCursorUp
  split <;> rfl

@[simp] theorem moveCursorDown_lastOutput (m : PromptModel) :
    (moveCursorDown m).lastOutput = m.lastOutput := by
  unfold moveCursorDown
  split <;> rfl

@[simp] theorem moveCursorLeft_lastOutput (m : PromptModel) :
    (moveCursorLeft m).lastOutput = m.lastOutput := by
  unfold moveCursorLeft
  repeat' split
  all_goals rfl

@[simp] theorem moveCursorRight_lastOutput (m : PromptModel) :
    (moveCursorRight m).lastOutput = m.lastOutput := by
  unfold moveCursorRight
  repeat' split
  all_goals rfl

@[simp] theorem navigateAutocompleteUp_lastOutput (m : PromptModel) :
    (navigateAutocompleteUp m).lastOutput = m.lastOutput := by
  unfold navigateAutocompleteUp
  repeat' split
  all_goals rfl

@[simp] theorem navigateAutocompleteDown_lastOutput (m : PromptModel) :
    (navigateAutocompleteDown m).lastOutput = m.lastOutput := by
  unfold navigateAutocompleteDown
  repeat' split
  all_goals rfl

@[simp] theorem loadHistoryEntry_lastOutput (m : PromptModel) :
    (loadHistoryEntry m).lastOutput = m.lastOutput := by
  unfold loadHistoryEntry
  repeat' split
  all_goals rfl

@[simp] theorem navigateHistoryUp_lastOutput (m : PromptModel) :
    (navigateHistoryUp m).lastOutput = m.lastOutput := by
  unfold navigateHistoryUp
  repeat' split
  any_goals rfl
  all_goals rw [loadHistoryEntry_lastOutput]

@[simp] theorem navigateHistoryDown_lastOutput (m : PromptModel) :
    (navigateHistoryDown m).lastOutput = m.lastOutput := by
  unfold navigateHistoryDown
  repeat' split
  any_goals rfl
  all_goals rw [loadHistoryEntry_lastOutput]

@[simp] theorem handleUpArrow_lastOutput (m : PromptModel) :
    (handleUpArrow m).lastOutput = m.lastOutput := by
  unfold handleUpArrow
  split
  · rw [navigateAutocompleteUp_lastOutput]
  · split
    · rw [navigateHistoryUp_lastOutput]
    · rw [moveCursorUp_lastOutput]

@[simp] theorem handleDownArrow_lastOutput (m : PromptModel) :
    (handleDownArrow m).lastOutput = m.lastOutput := by
  unfold handleDownArrow
  split
  · rw [navigateAutocompleteDown_lastOutput]
  · split
    · rw [navigateHistoryDown_lastOutput]
    · rw [moveCursorDown_lastOutput]

/-- The reachability invariant behind C9: whenever the suggestion popup
is visible, the last-output display is already empty (the popup can only
have been produced by an editing key, which cleared the output first). -/
theorem handleKeyPress_popupOutputInv (m : PromptModel) (e : KeyEvent)
    (h : m.showPopup = true → m.lastOutput = []) :
    (handleKeyPress m e).showPopup = true → (handleKeyPress m e).lastOutput = [] := by
  cases e with
  | ctrlC => exact h
  | esc => exact h
  | other => exact h
  | enter =>
    rw [handleKeyPress_enter]
    unfold handleEnter
    split
    · intro hp; simp at hp
    · intro hp; simp at hp
  | backspace =>
    intro _
    rw [handleKeyPress_backspace, updateAutocomplete_lastOutput, deleteBeforeCursor_lastOutput]
  | tab =>
    rw [handleKeyPress_tab]
    unfold applyAutocomplete
    split
    · intro hp; simp at hp
    · exact h
  | up =>
    intro _
    rw [handleKeyPress_up, handleUpArrow_lastOutput]
  | down =>
    intro _
    rw [handleKeyPress_down, handleDownArrow_lastOutput]
  | left =>
    intro _
    rw [handleKeyPress_left, clearAutocomplete_lastOutput, moveCursorLeft_lastOutput]
  | right =>
    intro _
    rw [handleKeyPress_right, clearAutocomplete_lastOutput, moveCursorRight_lastOutput]
  | space =>
    intro _
    rw [handleKeyPress_space, updateAutocomplete_lastOutput, insertRunes_lastOutput]
  | runes rs =>
    intro _
    rw [handleKeyPress_runes, updateAutocomplete_lastOutput, insertRunes_lastOutput]

theorem runEvents_popupOutputInv (config : PromptConfig) (evs : List KeyEvent) :
    (runEvents config evs).showPopup = true → (runEvents config evs).lastOutput = [] := by
  unfold runEvents
  have h0 : (NewPromptModel config).showPopup = true →
      (NewPromptModel config).lastOutput = [] := by
    unfold NewPromptModel
    split <;> simp
  generalize NewPromptModel config = m at h0 ⊢
  induction evs generalizing m with
  | nil => exact h0
  | cons e t ih => exact ih _ (handleKeyPress_popupOutputInv m e h0)

/-- C9, counterexample: submitting `"x;"` by Enter modifies the buffer
content (resets it to a single empty line) and leaves the stored output
NON-empty (it holds the new execution's display string), so the claim
"after any event that modifies the buffer content the stored last-output
string is empty" fails at the Enter event. -/
theorem C9_counterexample :
    (handleKeyPress (runEvents testConfig [KeyEvent.runes [120, 59]]) KeyEvent.enter).lines ≠
      (runEvents testConfig [KeyEvent.runes [120, 59]]).lines ∧
    (handleKeyPress (runEvents testConfig [KeyEvent.runes [120, 59]])
      KeyEvent.enter).lastOutput ≠ [] := by
  decide

/-- C9, amended: after any NON-Enter event that modifies the buffer
content — including applying the selected suggestion via Tab — the stored
last-output string is empty. (Enter is excluded: a submission stores the
new execution's display string while also resetting the buffer.) -/
theorem C9_amended (config : PromptConfig) (evs : List KeyEvent) (e : KeyEvent)
    (hne : e ≠ KeyEvent.enter)
    (hchange : (handleKeyPress (runEvents config evs) e).lines ≠
      (runEvents config evs).lines) :
    (handleKeyPress (runEvents config evs) e).lastOutput = [] := by
  have hinv := runEvents_popupOutputInv config evs
  cases e with
  | enter => exact absurd rfl hne
  | ctrlC => rw [handleKeyPress_ctrlC] at hchange; exact absurd rfl hchange
  | esc => rw [handleKeyPress_esc] at hchange; exact absurd rfl hchange
  | other => rw [handleKeyPress_other] at hchange; exact absurd rfl hchange
  | backspace =>
    rw [handleKeyPress_backspace, updateAutocomplete_lastOutput, deleteBeforeCursor_lastOutput]
  | space =>
    rw [handleKeyPress_space, updateAutocomplete_lastOutput, insertRunes_lastOutput]
  | runes rs =>
    rw [handleKeyPress_runes, updateAutocomplete_lastOutput, insertRunes_lastOutput]
  | up => rw [handleKeyPress_up, handleUpArrow_lastOutput]
  | down => rw [handleKeyPress_down, handleDownArrow_lastOutput]
  | left => rw [handleKeyPress_left, clearAutocomplete_lastOutput, moveCursorLeft_lastOutput]
  | right => rw [handleKeyPress_right, clearAutocomplete_lastOutput, moveCursorRight_lastOutput]
  | tab =>
    rw [handleKeyPress_tab] at hchange ⊢
    by_cases hg : (runEvents config evs).showPopup = true ∧
        0 < (runEvents config evs).suggestions.length
    · unfold applyAutocomplete
      rw [if_pos hg, clearAutocomplete_lastOutput]
      exact hinv hg.1
    · unfold applyAutocomplete at hchange
      rw [if_neg hg] at hchange
      exact absurd rfl hchange

/-- C9, witness for the amended theorem: Tab applying the suggestion
`"ab"` over the fragment `"a"` changes the line content, and the output
display is empty afterwards. -/
theorem C9_amended_witness :
    (handleKeyPress (runEvents testConfigAB [KeyEvent.runes [97]]) KeyEvent.tab).lastOutput =
      [] :=
  C9_amended testConfigAB [KeyEvent.runes [97]] KeyEvent.tab (by decide) (by decide)

/-! ## Supporting facts: the word-fragment scan

The fragment-locating parts of `currentWordFragment` are correct: the
returned span is exactly the maximal trailing run of classifier-accepted
runes ending at the cursor column. (The defect C3 records is only in the
cursor position after `applyAutocomplete` on multi-byte suggestion text.) -/

theorem wordScanStart_le (p : Nat → Bool) (rs : List Nat) :
    ∀ c, wordScanStart p rs c ≤ c := by
  intro c
  induction c with
  | zero => exact Nat.le_refl 0
  | succ s ih =>
    unfold wordScanStart
    split
    · exact Nat.le_trans ih (Nat.le_succ s)
    · exact Nat.le_refl _

theorem wordScanStart_accepted (p : Nat → Bool) (rs : List Nat) :
    ∀ c i, wordScanStart p rs c ≤ i → i < c → p (rs.getD i 0) = true := by
  intro c
  induction c with
  | zero => intro i h1 h2; omega
  | succ s ih =>
    intro i h1 h2
    unfold wordScanStart at h1
    by_cases hp : p (rs.getD s 0) = true
    · rw [if_pos hp] at h1
      by_cases hi : i = s
      · subst hi; exact hp
      · exact ih i h1 (by omega)
    · rw [if_neg hp] at h1
      omega

theorem wordScanStart_boundary (p : Nat → Bool) (rs : List Nat) (c : Nat) :
    wordScanStart p rs c = 0 ∨
      p (rs.getD (wordScanStart p rs c - 1) 0) = false := by
  induction c with
  | zero => left; rfl
  | succ s ih =>
    unfold wordScanStart
    by_cases hp : p (rs.getD s 0) = true
    · rw [if_pos hp]; exact ih
    · rw [if_neg hp]
      right
      simpa using hp

theorem wordScanStart_lt (p : Nat → Bool) (rs : List Nat) (c : Nat)
    (h0 : 0 < c) (hp : p (rs.getD (c - 1) 0) = true) :
    wordScanStart p rs c < c := by
  cases c with
  | zero => omega
  | succ s =>
    unfold wordScanStart
    rw [if_pos (by simpa using hp)]
    exact Nat.lt_succ_of_le (wordScanStart_le p rs s)

theorem goEncodeRune_ne_nil (r : Nat) : goEncodeRune r ≠ [] := by
  unfold goEncodeRune
  repeat' split
  all_goals simp

theorem utf8Encode_ne_nil (rs : List Nat) (h : rs ≠ []) : utf8Encode rs ≠ [] := by
  cases rs with
  | nil => exact absurd rfl h
  | cons r t =>
    show goEncodeRune r ++ _ ≠ []
    simp [goEncodeRune_ne_nil r]

/-- The non-empty fragment is exactly the maximal trailing run: it is the
slice from some start `s < cursorCol`; every rune of the slice passes the
classifier; and the slice cannot be extended left (either `s = 0` or the
rune before `s` fails the classifier). -/
theorem currentWordFragment_spec (m : PromptModel) (p : Nat → Bool)
    (hr : m.cursorRow < m.lines.length)
    (h0 : 0 < m.cursorCol)
    (hle : m.cursorCol ≤ (utf8Decode (m.lines.getD m.cursorRow [])).length)
    (hp : p ((utf8Decode (m.lines.getD m.cursorRow [])).getD (m.cursorCol - 1) 0) = true) :
    ∃ s, s < m.cursorCol ∧
      currentWordFragment m p =
        utf8Encode (((utf8Decode (m.lines.getD m.cursorRow [])).take m.cursorCol).drop s) ∧
      (∀ i, s ≤ i → i < m.cursorCol →
        p ((utf8Decode (m.lines.getD m.cursorRow [])).getD i 0) = true) ∧
      (s = 0 ∨ p ((utf8Decode (m.lines.getD m.cursorRow [])).getD (s - 1) 0) = false) := by
  refine ⟨wordScanStart p (utf8Decode (m.lines.getD m.cursorRow [])) m.cursorCol,
    wordScanStart_lt _ _ _ h0 hp, ?_,
    fun i h1 h2 => wordScanStart_accepted p _ m.cursorCol i h1 h2,
    wordScanStart_boundary p _ m.cursorCol⟩
  unfold currentWordFragment
  rw [if_neg (Nat.not_le.mpr hr), if_neg (by omega), if_neg (Nat.not_lt.mpr hle),
    if_pos ⟨wordScanStart_lt _ _ _ h0 hp, h0, hp⟩]

/-- Together with `currentWordFragment_ne_nil`: the fragment is non-empty
IFF the cursor row is in range, the column is positive and within the
line's rune count, and the rune left of the cursor passes the classifier. -/
theorem currentWordFragment_ne_nil_iff (m : PromptModel) (p : Nat → Bool)
    (hr : m.cursorRow < m.lines.length) :
    currentWordFragment m p ≠ [] ↔
      0 < m.cursorCol ∧
      m.cursorCol ≤ (utf8Decode (m.lines.getD m.cursorRow [])).length ∧
      p ((utf8Decode (m.lines.getD m.cursorRow [])).getD (m.cursorCol - 1) 0) = true := by
  constructor
  · intro h
    obtain ⟨_, h2, h3, h4⟩ := currentWordFragment_ne_nil m p h
    exact ⟨h2, h3, h4⟩
  · rintro ⟨h0, hle, hp⟩
    obtain ⟨s, hs, heq, _, _⟩ := currentWordFragment_spec m p hr h0 hle hp
    rw [heq]
    refine utf8Encode_ne_nil _ ?_
    intro hnil
    have hlen := congrArg List.length hnil
    rw [List.length_drop, List.length_take, List.length_nil] at hlen
    omega
